import Mathlib

/-
Verification of the contacts REST API core (multi-tenant contact management
with JWT-style authentication). The Python modules under src/ are embedded
shallowly: database tables become Lists, async handlers become pure state
transformers, raised HTTPExceptions become explicit error results, and an
unhandled Python exception (e.g. AttributeError on None) becomes a distinct
crash outcome. Clock reads (date.today) are passed as explicit parameters.
-/

set_option autoImplicit false

namespace ContactsApi

/-- Role enumeration: exactly three values; source stores it on the User row. -/
inductive Role
  | user
  | moderator
  | admin
deriving DecidableEq, Repr

/-- Token intent tag: access, refresh, or email-confirmation. -/
inductive Intent
  | access
  | refresh
  | emailConfirm
deriving DecidableEq, Repr

/-- A well-signed token, represented by its decoded payload: the subject
email, the intent tag, and a nonce that makes each issuance distinct
(standing in for the issued-at/expiry timestamps of a real JWT). Token
strings in the Python code correspond to these via the injective
`encodeToken`. -/
structure Token where
  sub : String
  intent : Intent
  nonce : Nat
deriving DecidableEq, Repr

/-- The User (Principal) row from src/entity/models.py, as described by the
spec data model and exercised by the unit tests. -/
structure User where
  id : Nat
  email : String
  password : String
  confirmed : Bool
  refresh_token : Option Token
  role : Role
deriving DecidableEq, Repr

/-- The Contact row: owned by exactly one user via owner_id. Calendar dates
are day numbers (Nat). -/
structure Contact where
  id : Nat
  owner_id : Nat
  firstname : String
  lastname : String
  email : String
  phone : String
  birthday : Nat
  additional_data : String
deriving DecidableEq, Repr

/-- Request body for contact create/update (src/schemas/contact.py
ContactSchema): five scalar fields plus additional_data. -/
structure ContactSchema where
  firstname : String
  lastname : String
  email : String
  phone : String
  birthday : Nat
  additional_data : String
deriving DecidableEq, Repr

/-- Replace the first element satisfying p by its image under f, leaving the
rest of the list untouched (the effect of mutating one ORM row and
committing). -/
def replaceFirst {α : Type} (p : α → Bool) (f : α → α) : List α → List α
  | [] => []
  | x :: xs => if p x then f x :: xs else x :: replaceFirst p f xs

namespace repository

/-- The filter_by(id=contact_id, user=user) predicate used by the
single-record contact queries. -/
def ownedBy (contact_id : Nat) (user : User) (c : Contact) : Bool :=
  c.id == contact_id && c.owner_id == user.id

/-- src/repository/contacts.py get_contacts: select contacts filtered by
user, with offset then limit. -/
def get_contacts (limit offset : Nat) (db : List Contact) (user : User) : List Contact :=
  (((db.filter (fun c => c.owner_id == user.id)).drop offset).take limit)

/-- src/repository/contacts.py get_all_contacts: select all contacts, no
owner filter, offset then limit. -/
def get_all_contacts (limit offset : Nat) (db : List Contact) : List Contact :=
  ((db.drop offset).take limit)

/-- src/repository/contacts.py get_contact: select by (id, user),
scalar_one_or_none. -/
def get_contact (contact_id : Nat) (db : List Contact) (user : User) : Option Contact :=
  db.find? (ownedBy contact_id user)

/-- The field assignments performed by update_contact when the contact is
found: exactly firstname, lastname, email, phone, birthday are overwritten
from the body; additional_data, id and owner are not touched. -/
def applyBody (body : ContactSchema) (c : Contact) : Contact :=
  { c with
    firstname := body.firstname
    lastname := body.lastname
    email := body.email
    phone := body.phone
    birthday := body.birthday }

/-- src/repository/contacts.py update_contact: select by (id, user); if
found, assign the five fields, commit, and return the refreshed contact;
otherwise return None with the table unchanged. -/
def update_contact (contact_id : Nat) (body : ContactSchema) (db : List Contact)
    (user : User) : List Contact × Option Contact :=
  match db.find? (ownedBy contact_id user) with
  | none => (db, none)
  | some c =>
      (replaceFirst (ownedBy contact_id user) (applyBody body) db, some (applyBody body c))

/-- src/repository/contacts.py delete_contact: select by (id, user); if
found, delete the row and commit; return the deleted contact or None. -/
def delete_contact (contact_id : Nat) (db : List Contact)
    (user : User) : List Contact × Option Contact :=
  match db.find? (ownedBy contact_id user) with
  | none => (db, none)
  | some c => (db.eraseP (ownedBy contact_id user), some c)

/-- Case-insensitive SQL ILIKE with wildcards on both sides: substring
match after lowercasing. -/
def ilike (query s : String) : Bool :=
  decide (query.toLower.toList <:+: s.toLower.toList)

/-- src/repository/contacts.py search_contacts: ILIKE on firstname,
lastname, email. The user parameter is received but no owner filter is
applied in the query. -/
def search_contacts (query : String) (db : List Contact) (user : User) : List Contact :=
  db.filter (fun c => ilike query c.firstname || ilike query c.lastname || ilike query c.email)

/-- src/repository/contacts.py search_by_birthday: today = date.today()
(passed here explicitly), end_day = today + 7 days; selects contacts with
today <= birthday <= end_day. The user parameter is received but no owner
filter is applied in the query. -/
def search_by_birthday (today : Nat) (db : List Contact) (user : User) : List Contact :=
  db.filter (fun c => decide (today ≤ c.birthday) && decide (c.birthday ≤ today + 7))

end repository

/-- Client-visible HTTP failure outcomes raised by the route handlers. -/
inductive HErr
  | notFound
  | forbidden
  | unauthorized
  | badRequest
deriving DecidableEq, Repr

namespace routes

/-- src/routes/contacts.py get_contact: 404 NOT FOUND when the scoped
repository query returns None, otherwise the contact. -/
def get_contact (contact_id : Nat) (db : List Contact) (user : User) : Except HErr Contact :=
  match repository.get_contact contact_id db user with
  | none => .error .notFound
  | some c => .ok c

/-- src/routes/contacts.py update_contact: 404 when the scoped repository
update returns None, otherwise the updated contact; the resulting table is
threaded through. -/
def update_contact (contact_id : Nat) (body : ContactSchema) (db : List Contact)
    (user : User) : List Contact × Except HErr Contact :=
  match repository.update_contact contact_id body db user with
  | (db1, none) => (db1, .error .notFound)
  | (db1, some c) => (db1, .ok c)

/-- src/routes/contacts.py delete_contact: 404 when the scoped repository
delete returns None, otherwise 204 with the deleted contact. -/
def delete_contact (contact_id : Nat) (db : List Contact)
    (user : User) : List Contact × Except HErr Contact :=
  match repository.delete_contact contact_id db user with
  | (db1, none) => (db1, .error .notFound)
  | (db1, some c) => (db1, .ok c)

/-- Modelled from the spec: RoleGate (src/services/roles.py RoleAccess is
not under src/). Stateless predicate: pure function of principal.role and a
caller-supplied allow-list; true exactly when the role is in the list. -/
def roleAccess (allowed : List Role) (r : Role) : Bool :=
  allowed.contains r

/-- src/routes/contacts.py access_to_route_all = RoleAccess([Role.admin,
Role.moderator]). -/
def access_to_route_all : List Role :=
  [Role.admin, Role.moderator]

/-- src/routes/contacts.py get_all_contacts: guarded by the
access_to_route_all dependency (403 Forbidden when the role of the principal is
not allowed), then the unscoped repository listing. -/
def get_all_contacts (limit offset : Nat) (db : List Contact)
    (user : User) : Except HErr (List Contact) :=
  if roleAccess access_to_route_all user.role then
    .ok (repository.get_all_contacts limit offset db)
  else
    .error .forbidden

end routes

/-- Modelled from the spec: PasswordHasher.hash (src/services/auth.py is not
under src/): a one-way salted digest, abstracted as an injective tagging so
that verify succeeds exactly on the original plaintext. -/
def get_password_hash (plain : String) : String :=
  "h$" ++ plain

/-- Modelled from the spec: PasswordHasher.verify — true iff the plaintext
hashes to the stored digest. -/
def verify_password (plain hashed : String) : Bool :=
  get_password_hash plain == hashed

/-- Modelled from the spec: TokenCodec.issue with access intent (access
tokens issued by AuthService; the nonce stands for the issuance timestamp,
supplied by the state of the caller so each issuance is distinct). -/
def create_access_token (email : String) (nonce : Nat) : Token :=
  ⟨email, Intent.access, nonce⟩

/-- Modelled from the spec: TokenCodec.issue with refresh intent. -/
def create_refresh_token (email : String) (nonce : Nat) : Token :=
  ⟨email, Intent.refresh, nonce⟩

/-- Injective rendering of a token payload into the token string returned
to the client; always non-empty. -/
def encodeToken (t : Token) : String :=
  "tok." ++ t.sub ++ "." ++ toString t.nonce

/-- Modelled from the spec: src/repository/users.py get_user_by_email
(module not under src/; behaviour fixed by the unique-email lookup of the spec
and the repository unit tests): first user with the given email, or None. -/
def get_user_by_email (email : String) (users : List User) : Option User :=
  users.find? (fun u => u.email == email)

/-- Modelled from the spec: src/repository/users.py update_token (module
not under src/): store the given refresh token (or None) on the user row
with that email and commit. -/
def update_token (email : String) (t : Option Token) (users : List User) : List User :=
  replaceFirst (fun u => u.email == email) (fun u => { u with refresh_token := t }) users

/-- Modelled from the spec: src/repository/users.py confirmed_email (module
not under src/): set confirmed=true on the user row with that email and
commit. -/
def set_confirmed (email : String) (users : List User) : List User :=
  replaceFirst (fun u => u.email == email) (fun u => { u with confirmed := true }) users

/-- Server-side authentication state: the users table plus a counter
supplying fresh token nonces (the monotone clock behind issued-at). -/
structure AuthState where
  users : List User
  counter : Nat
deriving DecidableEq, Repr

/-- Failure outcomes of the login route, one per distinct HTTPException
detail raised in src/routes/auth.py login. -/
inductive LoginErr
  | userNotFound
  | emailNotConfirmed
  | invalidCredentials
deriving DecidableEq, Repr

/-- The TokenSchema response body: access and refresh token strings plus
the literal token_type. -/
structure TokenSchema where
  access_token : String
  refresh_token : String
  token_type : String
deriving DecidableEq, Repr

namespace auth

/-- src/routes/auth.py login: look up the user by email (401 INVALID_EMAIL
if absent), reject unconfirmed accounts (401 EMAIL_NOT_CONFIRMED), verify
the password (401 INVALID_PASSWORD), then issue an access and a refresh
token, persist the refresh token, and return both with token_type
"bearer". -/
def login (email password : String) (st : AuthState) : AuthState × Except LoginErr TokenSchema :=
  match get_user_by_email email st.users with
  | none => (st, .error .userNotFound)
  | some u =>
      if !u.confirmed then (st, .error .emailNotConfirmed)
      else if !verify_password password u.password then (st, .error .invalidCredentials)
      else
        let access := create_access_token email st.counter
        let newRefresh := create_refresh_token email (st.counter + 1)
        (⟨update_token email (some newRefresh) st.users, st.counter + 2⟩,
         .ok ⟨encodeToken access, encodeToken newRefresh, "bearer"⟩)

end auth

/-- Outcomes of the refresh_token route. `noneTypeCrash` records the
unhandled AttributeError the handler raises when `user` is None and
`user.refresh_token` is dereferenced. -/
inductive RefreshResult
  | ok (pair : TokenSchema)
  | revoked
  | intentMismatch
  | noneTypeCrash
deriving DecidableEq, Repr

/-- Outcomes of the confirmed_email route: 400 Verification error, the
"Your email is already confirmed" message, or the "Email confirmed"
message. -/
inductive ConfirmResult
  | verificationError
  | alreadyConfirmed
  | confirmedMsg
deriving DecidableEq, Repr

/-- Outcomes of the request_email route. `noneTypeCrash` records the
unhandled AttributeError raised when `user.confirmed` is evaluated on a
None user; `checkEmail sent` is the "Check your email for confirmation."
reply, with `sent` recording whether the `if user:` guard queued the
confirmation email. -/
inductive RequestEmailResult
  | noneTypeCrash
  | alreadyConfirmed
  | checkEmail (sent : Bool)
deriving DecidableEq, Repr

namespace auth

/-- src/routes/auth.py refresh_token: decode_refresh_token validates the
token and yields the subject email (modelled from the spec: refresh intent
required, src/services/auth.py is not under src/); the user is then loaded
by email with no None check, so an absent user crashes on
`user.refresh_token`; a stored token differing from the presented one is
cleared and rejected with 401; otherwise a fresh access+refresh pair is
issued and the new refresh token persisted. -/
def refresh_token (tok : Token) (st : AuthState) : AuthState × RefreshResult :=
  if tok.intent != Intent.refresh then (st, .intentMismatch)
  else
    match get_user_by_email tok.sub st.users with
    | none => (st, .noneTypeCrash)
    | some u =>
        if u.refresh_token != some tok then
          (⟨update_token tok.sub none st.users, st.counter⟩, .revoked)
        else
          let access := create_access_token tok.sub st.counter
          let newRefresh := create_refresh_token tok.sub (st.counter + 1)
          (⟨update_token tok.sub (some newRefresh) st.users, st.counter + 2⟩,
           .ok ⟨encodeToken access, encodeToken newRefresh, "bearer"⟩)

/-- src/routes/auth.py confirmed_email: get_email_from_token validates the
confirmation token and yields the email (modelled from the spec:
email-confirm intent required, src/services/auth.py is not under src/);
an absent user is a 400 Verification error; an already-confirmed user gets
the idempotent message with no state change; otherwise confirmed is set to
true. -/
def confirmed_email (tok : Token) (st : AuthState) : AuthState × ConfirmResult :=
  if tok.intent != Intent.emailConfirm then (st, .verificationError)
  else
    match get_user_by_email tok.sub st.users with
    | none => (st, .verificationError)
    | some u =>
        if u.confirmed then (st, .alreadyConfirmed)
        else (⟨set_confirmed tok.sub st.users, st.counter⟩, .confirmedMsg)

/-- src/routes/auth.py request_email: evaluates `user.confirmed` before any
None check, so an absent user crashes; the subsequent `if user:` guard is
reached only with `user` truthy, so the email task is always queued on the
path that returns "Check your email for confirmation.". -/
def request_email (email : String) (st : AuthState) : RequestEmailResult :=
  match get_user_by_email email st.users with
  | none => .noneTypeCrash
  | some u =>
      if u.confirmed then .alreadyConfirmed
      else .checkEmail true

end auth

/-! Supporting lemmas shared by the claim theorems. -/

theorem find?_replaceFirst {α : Type} (p : α → Bool) (f : α → α) (l : List α)
    (hf : ∀ a, p a = true → p (f a) = true) :
    (replaceFirst p f l).find? p = (l.find? p).map f := by
  induction l with
  | nil => simp [replaceFirst]
  | cons x xs ih =>
      by_cases hx : p x = true
      · simp [replaceFirst, hx, List.find?_cons_of_pos, hf x hx]
      · have hx0 : p x = false := by simpa using hx
        simp [replaceFirst, hx0, List.find?_cons_of_neg, ih]

theorem get_user_by_email_update_token (email : String) (t : Option Token) (us : List User) :
    get_user_by_email email (update_token email t us) =
      (get_user_by_email email us).map (fun u => { u with refresh_token := t }) := by
  exact find?_replaceFirst _ _ us (fun a ha => ha)

theorem get_user_by_email_set_confirmed (email : String) (us : List User) :
    get_user_by_email email (set_confirmed email us) =
      (get_user_by_email email us).map (fun u => { u with confirmed := true }) := by
  exact find?_replaceFirst _ _ us (fun a ha => ha)

/-- Day-of-year in 2024 (a leap year): cumulative month lengths plus the
day, used to state the concrete calendar examples of the spec. -/
def dayOf2024 (m d : Nat) : Nat :=
  ([31, 29, 31, 30, 31, 30, 31, 31, 30, 31, 30, 31].take (m - 1)).sum + d

/-! Claim theorems and their witnesses. -/

/-- C1: get_contact, update_contact and delete_contact query only contacts
owned by the requesting principal; a contact id owned entirely by other
principals yields 404 not found (never Forbidden, never the other owner's
data), and for update/delete the table is unchanged; any contact a get
returns is owned by the requester. -/
theorem C1_owner_scoped (contact_id : Nat) (body : ContactSchema) (db : List Contact) (u : User)
    (h : ∀ c ∈ db, c.id = contact_id → c.owner_id ≠ u.id) :
    routes.get_contact contact_id db u = .error .notFound ∧
    routes.update_contact contact_id body db u = (db, .error .notFound) ∧
    routes.delete_contact contact_id db u = (db, .error .notFound) ∧
    ∀ (db2 : List Contact) (c : Contact),
      routes.get_contact contact_id db2 u = .ok c → c.owner_id = u.id := by
  have hnone : db.find? (repository.ownedBy contact_id u) = none := by
    rw [List.find?_eq_none]
    intro c hc hp
    have h1 : c.id = contact_id ∧ c.owner_id = u.id := by
      simpa [repository.ownedBy] using hp
    exact h c hc h1.1 h1.2
  refine ⟨?_, ?_, ?_, ?_⟩
  · simp [routes.get_contact, repository.get_contact, hnone]
  · simp [routes.update_contact, repository.update_contact, hnone]
  · simp [routes.delete_contact, repository.delete_contact, hnone]
  · intro db2 c hc
    unfold routes.get_contact repository.get_contact at hc
    cases hfind : db2.find? (repository.ownedBy contact_id u) with
    | none => rw [hfind] at hc; cases hc
    | some c0 =>
        rw [hfind] at hc
        have hco : c0 = c := by injection hc
        rw [← hco]
        have h2 : c0.id = contact_id ∧ c0.owner_id = u.id := by
          simpa [repository.ownedBy] using List.find?_some hfind
        exact h2.2

/-- C1 witness: a principal with id 1 requesting contact id 1 owned by
principal 2 gets 404 from get/update/delete with the table unchanged. -/
theorem C1_owner_scoped_witness :
    routes.get_contact 1 [⟨1, 2, "Anna", "Bond", "a@b.c", "123", 10, "x"⟩]
        ⟨1, "p@q.r", "hp", true, none, Role.user⟩ = .error .notFound ∧
    routes.update_contact 1 ⟨"Fff", "Lll", "e@e.e", "000", 5, "y"⟩
        [⟨1, 2, "Anna", "Bond", "a@b.c", "123", 10, "x"⟩]
        ⟨1, "p@q.r", "hp", true, none, Role.user⟩ =
      ([⟨1, 2, "Anna", "Bond", "a@b.c", "123", 10, "x"⟩], .error .notFound) ∧
    routes.delete_contact 1 [⟨1, 2, "Anna", "Bond", "a@b.c", "123", 10, "x"⟩]
        ⟨1, "p@q.r", "hp", true, none, Role.user⟩ =
      ([⟨1, 2, "Anna", "Bond", "a@b.c", "123", 10, "x"⟩], .error .notFound) := by
  have h := C1_owner_scoped 1 ⟨"Fff", "Lll", "e@e.e", "000", 5, "y"⟩
      [⟨1, 2, "Anna", "Bond", "a@b.c", "123", 10, "x"⟩]
      ⟨1, "p@q.r", "hp", true, none, Role.user⟩ (by decide)
  exact ⟨h.1, h.2.1, h.2.2.1⟩

/-- C3: the text search and the birthday search apply no owner filter, so
for any database state two authenticated principals receive identical
result sets. -/
theorem C3_search_results_global (q : String) (today : Nat) (db : List Contact) (a b : User) :
    repository.search_contacts q db a = repository.search_contacts q db b ∧
    repository.search_by_birthday today db a = repository.search_by_birthday today db b :=
  ⟨rfl, rfl⟩

/-- C6: the birthday search returns exactly the contacts whose birthday
lies in [today, today + 7]; on 2024-06-01 a birthday of 2024-06-05 is
included and one of 2024-06-10 is excluded. -/
theorem C6_birthday_window (today : Nat) (db : List Contact) (u : User) (c : Contact) :
    (c ∈ repository.search_by_birthday today db u ↔
      c ∈ db ∧ today ≤ c.birthday ∧ c.birthday ≤ today + 7) ∧
    (∀ c1 ∈ db, c1.birthday = dayOf2024 6 5 →
      c1 ∈ repository.search_by_birthday (dayOf2024 6 1) db u) ∧
    (∀ c2 : Contact, c2.birthday = dayOf2024 6 10 →
      c2 ∉ repository.search_by_birthday (dayOf2024 6 1) db u) := by
  have hmem : ∀ (t : Nat) (x : Contact), x ∈ repository.search_by_birthday t db u ↔
      x ∈ db ∧ t ≤ x.birthday ∧ x.birthday ≤ t + 7 := by
    intro t x
    simp [repository.search_by_birthday, List.mem_filter]
  refine ⟨hmem today c, ?_, ?_⟩
  · intro c1 hc1 hb
    rw [hmem]
    refine ⟨hc1, ?_, ?_⟩ <;> rw [hb] <;> decide
  · intro c2 hb hin
    have h2 := ((hmem (dayOf2024 6 1) c2).mp hin).2.2
    rw [hb] at h2
    exact absurd h2 (by decide)

/-- C6 witness: on day 2024-06-01 the concrete contact with birthday
2024-06-05 is returned and the one with birthday 2024-06-10 is not. -/
theorem C6_birthday_window_witness :
    (⟨1, 1, "An", "Bo", "a@b", "1", dayOf2024 6 5, "d1"⟩ : Contact) ∈
      repository.search_by_birthday (dayOf2024 6 1)
        [⟨1, 1, "An", "Bo", "a@b", "1", dayOf2024 6 5, "d1"⟩,
         ⟨2, 1, "Ce", "Do", "c@d", "2", dayOf2024 6 10, "d2"⟩]
        ⟨1, "e@f", "hp", true, none, Role.user⟩ ∧
    (⟨2, 1, "Ce", "Do", "c@d", "2", dayOf2024 6 10, "d2"⟩ : Contact) ∉
      repository.search_by_birthday (dayOf2024 6 1)
        [⟨1, 1, "An", "Bo", "a@b", "1", dayOf2024 6 5, "d1"⟩,
         ⟨2, 1, "Ce", "Do", "c@d", "2", dayOf2024 6 10, "d2"⟩]
        ⟨1, "e@f", "hp", true, none, Role.user⟩ := by
  have h := C6_birthday_window (dayOf2024 6 1)
      [⟨1, 1, "An", "Bo", "a@b", "1", dayOf2024 6 5, "d1"⟩,
       ⟨2, 1, "Ce", "Do", "c@d", "2", dayOf2024 6 10, "d2"⟩]
      ⟨1, "e@f", "hp", true, none, Role.user⟩
      ⟨1, 1, "An", "Bo", "a@b", "1", dayOf2024 6 5, "d1"⟩
  exact ⟨h.2.1 _ (by simp) rfl, h.2.2 _ rfl⟩

/-- C7: the unscoped listing succeeds exactly for moderator/admin roles and
fails with 403 Forbidden for role user, while the owner-scoped
get/update/delete never return Forbidden for any role. -/
theorem C7_role_gated_listing (limit offset : Nat) (db : List Contact) (u : User) :
    ((u.role = Role.moderator ∨ u.role = Role.admin) →
      routes.get_all_contacts limit offset db u =
        .ok (repository.get_all_contacts limit offset db)) ∧
    (u.role = Role.user →
      routes.get_all_contacts limit offset db u = .error .forbidden) ∧
    ∀ (cid : Nat) (body : ContactSchema) (db2 : List Contact),
      routes.get_contact cid db2 u ≠ .error .forbidden ∧
      (routes.update_contact cid body db2 u).2 ≠ .error .forbidden ∧
      (routes.delete_contact cid db2 u).2 ≠ .error .forbidden := by
  refine ⟨?_, ?_, ?_⟩
  · rintro (hr | hr) <;>
      simp [routes.get_all_contacts, routes.roleAccess, routes.access_to_route_all, hr]
  · intro hr
    simp [routes.get_all_contacts, routes.roleAccess, routes.access_to_route_all, hr]
  · intro cid body db2
    refine ⟨?_, ?_, ?_⟩
    · unfold routes.get_contact
      cases repository.get_contact cid db2 u <;> simp
    · unfold routes.update_contact
      rcases repository.update_contact cid body db2 u with ⟨db3, _ | c⟩ <;> simp
    · unfold routes.delete_contact
      rcases repository.delete_contact cid db2 u with ⟨db3, _ | c⟩ <;> simp

/-- C7 witness: a moderator gets the unscoped listing, a plain user gets
403 Forbidden, and a scoped get by a plain user is never Forbidden. -/
theorem C7_role_gated_listing_witness :
    routes.get_all_contacts 10 0 [⟨1, 2, "An", "Bo", "a@b", "1", 3, "d"⟩]
        ⟨7, "m@x", "hp", true, none, Role.moderator⟩ =
      .ok [⟨1, 2, "An", "Bo", "a@b", "1", 3, "d"⟩] ∧
    routes.get_all_contacts 10 0 [⟨1, 2, "An", "Bo", "a@b", "1", 3, "d"⟩]
        ⟨8, "u@x", "hp", true, none, Role.user⟩ = .error .forbidden ∧
    routes.get_contact 1 [⟨1, 2, "An", "Bo", "a@b", "1", 3, "d"⟩]
        ⟨8, "u@x", "hp", true, none, Role.user⟩ ≠ .error .forbidden := by
  have hm := C7_role_gated_listing 10 0 [⟨1, 2, "An", "Bo", "a@b", "1", 3, "d"⟩]
      ⟨7, "m@x", "hp", true, none, Role.moderator⟩
  have hu := C7_role_gated_listing 10 0 [⟨1, 2, "An", "Bo", "a@b", "1", 3, "d"⟩]
      ⟨8, "u@x", "hp", true, none, Role.user⟩
  exact ⟨hm.1 (Or.inl rfl), hu.2.1 rfl,
    (hu.2.2 1 ⟨"F", "L", "e@e", "0", 5, "y"⟩ [⟨1, 2, "An", "Bo", "a@b", "1", 3, "d"⟩]).1⟩

/-- C8: a valid refresh token whose subject has no principal row makes the
refresh handler dereference None.refresh_token: the outcome is the
unhandled-error crash, not a handled revocation, intent-mismatch or
success response. -/
theorem C8_refresh_absent_user_crash (tok : Token) (st : AuthState)
    (hi : tok.intent = Intent.refresh)
    (hu : get_user_by_email tok.sub st.users = none) :
    auth.refresh_token tok st = (st, .noneTypeCrash) ∧
    (auth.refresh_token tok st).2 ≠ .revoked ∧
    (auth.refresh_token tok st).2 ≠ .intentMismatch ∧
    ∀ p : TokenSchema, (auth.refresh_token tok st).2 ≠ .ok p := by
  have h1 : auth.refresh_token tok st = (st, .noneTypeCrash) := by
    unfold auth.refresh_token
    rw [hi]
    simp [hu]
  refine ⟨h1, by simp [h1], by simp [h1], fun p => by simp [h1]⟩

/-- C8 witness: refreshing with a refresh token for an unregistered email
against an empty users table crashes. -/
theorem C8_refresh_absent_user_crash_witness :
    auth.refresh_token ⟨"ghost@x", Intent.refresh, 0⟩ ⟨[], 0⟩ =
      (⟨[], 0⟩, RefreshResult.noneTypeCrash) :=
  (C8_refresh_absent_user_crash ⟨"ghost@x", Intent.refresh, 0⟩ ⟨[], 0⟩ rfl rfl).1

/-- C9: request_email evaluates user.confirmed before any None guard, so an
unregistered email crashes instead of returning a message, and the "Check
your email for confirmation." reply arises only for an existing
unconfirmed principal (with the `if user` guard then necessarily true). -/
theorem C9_request_email_guard (email : String) (st : AuthState) :
    (get_user_by_email email st.users = none →
      auth.request_email email st = .noneTypeCrash) ∧
    ∀ sent : Bool, auth.request_email email st = .checkEmail sent →
      sent = true ∧ ∃ u, get_user_by_email email st.users = some u ∧ u.confirmed = false := by
  constructor
  · intro h
    simp [auth.request_email, h]
  · intro sent h
    unfold auth.request_email at h
    cases hu : get_user_by_email email st.users with
    | none => rw [hu] at h; cases h
    | some u =>
        rw [hu] at h
        cases hc : u.confirmed with
        | true => simp [hc] at h
        | false =>
            simp [hc] at h
            have hs : sent = true := by simpa [eq_comm] using h
            exact ⟨hs, u, rfl, hc⟩

/-- C9 witness: requesting a confirmation email for an address with no
principal yields the crash outcome. -/
theorem C9_request_email_guard_witness :
    auth.request_email "nobody@x" ⟨[], 0⟩ = RequestEmailResult.noneTypeCrash :=
  (C9_request_email_guard "nobody@x" ⟨[], 0⟩).1 rfl

/-- C10: a successful update_contact overwrites exactly firstname,
lastname, email, phone and birthday from the body; additional_data, id and
owner_id of the stored contact are unchanged even when the body carries a
different additional_data. -/
theorem C10_update_frame (cid : Nat) (body : ContactSchema) (db : List Contact) (u : User)
    (c : Contact) (h : db.find? (repository.ownedBy cid u) = some c) :
    repository.update_contact cid body db u =
      (replaceFirst (repository.ownedBy cid u) (repository.applyBody body) db,
        some (repository.applyBody body c)) ∧
    (repository.applyBody body c).additional_data = c.additional_data ∧
    (repository.applyBody body c).id = c.id ∧
    (repository.applyBody body c).owner_id = c.owner_id ∧
    (repository.applyBody body c).firstname = body.firstname ∧
    (repository.applyBody body c).lastname = body.lastname ∧
    (repository.applyBody body c).email = body.email ∧
    (repository.applyBody body c).phone = body.phone ∧
    (repository.applyBody body c).birthday = body.birthday ∧
    (replaceFirst (repository.ownedBy cid u) (repository.applyBody body) db).find?
        (repository.ownedBy cid u) = some (repository.applyBody body c) := by
  refine ⟨by simp [repository.update_contact, h], rfl, rfl, rfl, rfl, rfl, rfl, rfl, rfl, ?_⟩
  rw [find?_replaceFirst (repository.ownedBy cid u) (repository.applyBody body) db
      (fun a ha => ha), h]
  rfl

/-- C10 witness: updating an owned contact with a body that carries a new
additional_data leaves the stored additional_data (and id and owner)
untouched while the five scalar fields take the values of the body. -/
theorem C10_update_frame_witness :
    repository.update_contact 5 ⟨"Newf", "Newl", "n@n", "99", 42, "NEWDATA"⟩
      [⟨5, 3, "Oldf", "Oldl", "o@o", "11", 7, "OLDDATA"⟩]
      ⟨3, "own@x", "hp", true, none, Role.user⟩ =
    ([⟨5, 3, "Newf", "Newl", "n@n", "99", 42, "OLDDATA"⟩],
      some ⟨5, 3, "Newf", "Newl", "n@n", "99", 42, "OLDDATA"⟩) := by
  have h := C10_update_frame 5 ⟨"Newf", "Newl", "n@n", "99", 42, "NEWDATA"⟩
      [⟨5, 3, "Oldf", "Oldl", "o@o", "11", 7, "OLDDATA"⟩]
      ⟨3, "own@x", "hp", true, none, Role.user⟩
      ⟨5, 3, "Oldf", "Oldl", "o@o", "11", 7, "OLDDATA"⟩ (by decide)
  rw [h.1]
  rfl

theorem encodeToken_length_pos (t : Token) : 0 < (encodeToken t).length := by
  have h4 : ("tok." : String).length = 4 := rfl
  simp [encodeToken, String.length_append, h4]

/-- C2: a presented refresh token is accepted only when it equals the
stored one verbatim; on mismatch the stored token is cleared and the
request is rejected as revoked; on match a fresh pair is issued and the
new refresh token persisted, after which replaying the old token is
rejected as revoked. -/
theorem C2_refresh_rotation (st : AuthState) (tok : Token) (u : User)
    (hi : tok.intent = Intent.refresh)
    (hu : get_user_by_email tok.sub st.users = some u)
    (hn : tok.nonce < st.counter) :
    (u.refresh_token ≠ some tok →
      auth.refresh_token tok st =
        (⟨update_token tok.sub none st.users, st.counter⟩, .revoked)) ∧
    (u.refresh_token = some tok →
      auth.refresh_token tok st =
        (⟨update_token tok.sub (some (create_refresh_token tok.sub (st.counter + 1))) st.users,
            st.counter + 2⟩,
          .ok ⟨encodeToken (create_access_token tok.sub st.counter),
            encodeToken (create_refresh_token tok.sub (st.counter + 1)), "bearer"⟩) ∧
      (auth.refresh_token tok (auth.refresh_token tok st).1).2 = .revoked) := by
  constructor
  · intro hne
    unfold auth.refresh_token
    rw [hi]
    simp [hu, hne]
  · intro heq
    have hstep : auth.refresh_token tok st =
        (⟨update_token tok.sub (some (create_refresh_token tok.sub (st.counter + 1))) st.users,
            st.counter + 2⟩,
          .ok ⟨encodeToken (create_access_token tok.sub st.counter),
            encodeToken (create_refresh_token tok.sub (st.counter + 1)), "bearer"⟩) := by
      unfold auth.refresh_token
      rw [hi]
      simp [hu, heq]
    refine ⟨hstep, ?_⟩
    rw [hstep]
    have hu2 : get_user_by_email tok.sub
        (update_token tok.sub (some (create_refresh_token tok.sub (st.counter + 1))) st.users) =
        some { u with refresh_token := some (create_refresh_token tok.sub (st.counter + 1)) } := by
      rw [get_user_by_email_update_token, hu]
      rfl
    have hne2 : some (create_refresh_token tok.sub (st.counter + 1)) ≠ some tok := by
      intro hcontra
      have : (create_refresh_token tok.sub (st.counter + 1)).nonce = tok.nonce := by
        rw [Option.some.injEq] at hcontra
        rw [hcontra]
      simp [create_refresh_token] at this
      omega
    unfold auth.refresh_token
    rw [hi]
    simp [hu2, hne2]

/-- C2 witness: a user whose stored refresh token matches the presented
one gets a rotated pair, and replaying the same token immediately after
is rejected as revoked. -/
theorem C2_refresh_rotation_witness :
    (auth.refresh_token ⟨"a@x", Intent.refresh, 0⟩
      (auth.refresh_token ⟨"a@x", Intent.refresh, 0⟩
        ⟨[⟨1, "a@x", "h$pw", true, some ⟨"a@x", Intent.refresh, 0⟩, Role.user⟩], 5⟩).1).2 =
      RefreshResult.revoked := by
  have h := C2_refresh_rotation
      ⟨[⟨1, "a@x", "h$pw", true, some ⟨"a@x", Intent.refresh, 0⟩, Role.user⟩], 5⟩
      ⟨"a@x", Intent.refresh, 0⟩
      ⟨1, "a@x", "h$pw", true, some ⟨"a@x", Intent.refresh, 0⟩, Role.user⟩
      rfl (by decide) (by decide)
  exact (h.2 rfl).2

/-- C4: login fails with the user-not-found error when no principal has
the email, with the email-not-confirmed error when the principal is
unconfirmed, with the invalid-credentials error when the password does
not verify; otherwise it issues both tokens, persists the refresh token,
and returns non-empty token strings with token_type "bearer". -/
theorem C4_login_cases (email password : String) (st : AuthState) :
    (get_user_by_email email st.users = none →
      auth.login email password st = (st, .error .userNotFound)) ∧
    (∀ u, get_user_by_email email st.users = some u → u.confirmed = false →
      auth.login email password st = (st, .error .emailNotConfirmed)) ∧
    (∀ u, get_user_by_email email st.users = some u → u.confirmed = true →
      verify_password password u.password = false →
      auth.login email password st = (st, .error .invalidCredentials)) ∧
    (∀ u, get_user_by_email email st.users = some u → u.confirmed = true →
      verify_password password u.password = true →
      auth.login email password st =
        (⟨update_token email (some (create_refresh_token email (st.counter + 1))) st.users,
            st.counter + 2⟩,
          .ok ⟨encodeToken (create_access_token email st.counter),
            encodeToken (create_refresh_token email (st.counter + 1)), "bearer"⟩) ∧
      0 < (encodeToken (create_access_token email st.counter)).length ∧
      0 < (encodeToken (create_refresh_token email (st.counter + 1))).length) := by
  refine ⟨?_, ?_, ?_, ?_⟩
  · intro h
    simp [auth.login, h]
  · intro u hu hc
    simp [auth.login, hu, hc]
  · intro u hu hc hv
    simp [auth.login, hu, hc, hv]
  · intro u hu hc hv
    refine ⟨by simp [auth.login, hu, hc, hv], encodeToken_length_pos _, encodeToken_length_pos _⟩

/-- C4 witness: a confirmed user with the right password gets concrete
non-empty bearer tokens, and the new refresh token is stored. -/
theorem C4_login_cases_witness :
    auth.login "u@x" "secret" ⟨[⟨1, "u@x", "h$secret", true, none, Role.user⟩], 0⟩ =
      (⟨[⟨1, "u@x", "h$secret", true, some ⟨"u@x", Intent.refresh, 1⟩, Role.user⟩], 2⟩,
        .ok ⟨"tok.u@x.0", "tok.u@x.1", "bearer"⟩) := by
  have h := (C4_login_cases "u@x" "secret"
      ⟨[⟨1, "u@x", "h$secret", true, none, Role.user⟩], 0⟩).2.2.2
      ⟨1, "u@x", "h$secret", true, none, Role.user⟩ (by decide) rfl (by decide)
  rw [h.1]
  rfl

/-- C5: confirm_email with a valid token is a 400 verification error for
an absent principal, flips confirmed from false to true exactly once, and
a second call with the same token is a state-preserving no-op returning
the already-confirmed outcome. -/
theorem C5_confirm_idempotent (st : AuthState) (tok : Token) (u : User)
    (hi : tok.intent = Intent.emailConfirm)
    (hu : get_user_by_email tok.sub st.users = some u)
    (hc : u.confirmed = false) :
    (∀ s : AuthState, get_user_by_email tok.sub s.users = none →
      auth.confirmed_email tok s = (s, .verificationError)) ∧
    auth.confirmed_email tok st = (⟨set_confirmed tok.sub st.users, st.counter⟩, .confirmedMsg) ∧
    get_user_by_email tok.sub (set_confirmed tok.sub st.users) =
      some { u with confirmed := true } ∧
    auth.confirmed_email tok ⟨set_confirmed tok.sub st.users, st.counter⟩ =
      (⟨set_confirmed tok.sub st.users, st.counter⟩, .alreadyConfirmed) := by
  have hu2 : get_user_by_email tok.sub (set_confirmed tok.sub st.users) =
      some { u with confirmed := true } := by
    rw [get_user_by_email_set_confirmed, hu]
    rfl
  refine ⟨?_, ?_, hu2, ?_⟩
  · intro s hs
    unfold auth.confirmed_email
    rw [hi]
    simp [hs]
  · unfold auth.confirmed_email
    rw [hi]
    simp [hu, hc]
  · unfold auth.confirmed_email
    rw [hi]
    simp [hu2]

/-- C5 witness: confirming a concrete unconfirmed account succeeds once,
and the immediate second confirmation with the same token is the
already-confirmed no-op. -/
theorem C5_confirm_idempotent_witness :
    (auth.confirmed_email ⟨"c@x", Intent.emailConfirm, 0⟩
      ⟨[⟨1, "c@x", "hp", false, none, Role.user⟩], 0⟩).2 = ConfirmResult.confirmedMsg ∧
    (auth.confirmed_email ⟨"c@x", Intent.emailConfirm, 0⟩
      (auth.confirmed_email ⟨"c@x", Intent.emailConfirm, 0⟩
        ⟨[⟨1, "c@x", "hp", false, none, Role.user⟩], 0⟩).1).2 =
      ConfirmResult.alreadyConfirmed := by
  have h := C5_confirm_idempotent ⟨[⟨1, "c@x", "hp", false, none, Role.user⟩], 0⟩
      ⟨"c@x", Intent.emailConfirm, 0⟩ ⟨1, "c@x", "hp", false, none, Role.user⟩
      rfl (by decide) rfl
  constructor
  · rw [h.2.1]
  · rw [h.2.1]
    rw [h.2.2.2]

end ContactsApi
